import Mathlib

/-! Short-link lifecycle of `main.go`.

A shallow embedding of the two HTTP handlers `shortenLink` and `redirectToLink`,
of `generateShortLink` and of `isShortLinkInUse`.

* The table `urls` is a list of rows in insertion order.
* Everything the handlers obtain from outside the process is an explicit input
  (`Env`): whether each database call succeeds, the successive results of
  `rand.Intn`, and the successive results of `time.Now()`.
* Instants are integers (nanoseconds), `time.Hour` is `3600 * 10^9`.
* `len(s)` of a Go string is its length in bytes: `String.utf8ByteSize`.
* The DSN passed to `sql.Open` (main.go:60, 158) is `user:password@/dbname`
  with no `parseTime` parameter, so the driver delivers the columns
  `created_at` and `expires_at` as bytes and `Scan` into the `time.Time` fields
  of `URL` returns an error for every row found (`scanRow`).
* `isShortLinkInUse` receives `sql.DB` by value (main.go:99, 146). Each call
  works on a copy of the connection pool: one call is harmless, and after two
  calls the pooled connection has been closed while still listed, so the next
  database call of the request panics (`pickShortLink`, `finishShorten`).
* The collision loop of `shortenLink` has no bound in the source; the embedding
  runs it with fuel and answers `none` when the fuel is used up before the loop
  has ended.
-/

namespace UrlShortener

/-- Go struct `URL` (main.go:22-28). -/
structure URL where
  ID : Int
  ShortLink : String
  FullLink : String
  CreatedAt : Int
  ExpiresAt : Int
deriving DecidableEq, Repr

/-- Modelled from the spec: the schema of table `urls` is not in the source.
The table is the list of its rows, oldest first, together with the next
store-assigned surrogate id. -/
structure Table where
  rows : List URL
  autoInc : Int
deriving DecidableEq, Repr

/-- Error value of a database call: `sql.ErrNoRows`, a failed query, or an
error of `Scan`. -/
inductive SqlErr where
  | noRows
  | failed
  | scan
deriving DecidableEq, Repr

/-- Database calls issued by the handlers, recorded in the order they happen. -/
inductive StoreOp where
  | openDB
  | ping
  | countAll
  | selectByFullLink (fullLink : String)
  | countByShortLink (shortLink : String)
  | prepareInsert
  | execInsert (shortLink fullLink : String) (createdAt expiresAt : Int)
  | lastInsertId
  | selectByShortLink (shortLink : String)
deriving DecidableEq, Repr

/-- What a handler writes to the `http.ResponseWriter`. -/
inductive Response where
  /-- Status set by `w.WriteHeader(status)`, body an `ErrorResponse` with `Error = msg`. -/
  | errorJSON (status : Nat) (msg : String)
  /-- Body `Encode(url)` with the implicit status 200. -/
  | urlJSON (url : URL)
  /-- Call `http.Redirect(w, r, location, status)`. -/
  | redirect (location : String) (status : Nat)
  /-- The handler is aborted by a runtime panic before it has written anything. -/
  | panic
deriving DecidableEq, Repr

/-- Inputs of one request that come from outside the handler. -/
structure Env where
  /-- Whether `sql.Open` returns no error. -/
  openOk : Bool
  /-- Whether `db.Ping` returns no error. -/
  pingOk : Bool
  /-- Whether `SELECT COUNT(*) FROM urls` executes. -/
  countOk : Bool
  /-- Whether the row lookup (`WHERE full_link = ?` or `WHERE short_link = ?`) executes. -/
  selectOk : Bool
  /-- Whether the query of the `k`-th call of `isShortLinkInUse` executes. -/
  inUseOk : Nat → Bool
  /-- Whether `db.Prepare` returns no error. -/
  prepareOk : Bool
  /-- Whether `stmt.Exec` returns no error. -/
  execOk : Bool
  /-- Whether `res.LastInsertId` returns no error. -/
  lastIdOk : Bool
  /-- The `k`-th result of `rand.Intn(len(letterRunes))` in this request. -/
  intn : Nat → Fin 62
  /-- The `k`-th result of `time.Now()` in this request. -/
  now : Nat → Int

/-- Final state of a handler: response, table, and the database calls made. -/
structure Outcome where
  resp : Response
  db : Table
  trace : List StoreOp
deriving DecidableEq, Repr

/-- Go constant `time.Hour`, in nanoseconds. -/
def Hour : Int := 3600000000000

/-- The alphabet `letterRunes` (main.go:138). -/
def letterRunes : List Char :=
  "abcdefghijklmnopqrstuvwxyzABCDEFGHIJKLMNOPQRSTUVWXYZ0123456789".toList

/-- The rune `letterRunes[i]` for an index produced by `rand.Intn(len(letterRunes))`. -/
def letterAt (i : Fin 62) : Char :=
  letterRunes.get ⟨i.val, Nat.lt_of_lt_of_eq i.isLt (by decide)⟩

/-- Function `generateShortLink` (main.go:137-144); `draw i` is the result of the call of
`rand.Intn` made for position `i`. -/
def generateShortLink (draw : Nat → Fin 62) : String :=
  String.mk ((List.range 11).map (fun i => letterAt (draw i)))

/-- The `k`-th call of `generateShortLink` within one request: it consumes the
draws `11 * k, ..., 11 * k + 10`. -/
def candidate (env : Env) (k : Nat) : String :=
  generateShortLink (fun i => env.intn (11 * k + i))

/-- Query `SELECT COUNT(*) FROM urls` scanned into `count` (main.go:77). -/
def queryCount (ok : Bool) (db : Table) : Except SqlErr Nat :=
  if ok then .ok db.rows.length else .error .failed

/-- Whether the DSN of `sql.Open` (main.go:60, 158) sets `parseTime=true`: it is
`fmt.Sprintf("%s:%s@/%s", DBUser, DBPassword, DBName)`, with no parameter. -/
def parseTime : Bool := false

/-- The call `Scan(&url.ID, &url.ShortLink, &url.FullLink, &url.CreatedAt,
&url.ExpiresAt)` on a row found (main.go:91, 174): without `parseTime` the
driver delivers `created_at` and `expires_at` as bytes, which `Scan` does not
store into a `time.Time`. -/
def scanRow (row : URL) : Except SqlErr URL :=
  if parseTime then .ok row else .error .scan

/-- Query `SELECT id, short_link, full_link, created_at, expires_at FROM urls
WHERE full_link = ?` scanned into a `URL` (main.go:91): the scan of the first
matching row, `sql.ErrNoRows` when there is none. -/
def queryRowByFullLink (ok : Bool) (db : Table) (fullLink : String) : Except SqlErr URL :=
  if ok then
    match db.rows.find? (fun r => r.FullLink == fullLink) with
    | some row => scanRow row
    | none => .error .noRows
  else .error .failed

/-- Query `SELECT id, short_link, full_link, created_at, expires_at FROM urls
WHERE short_link = ?` scanned into a `URL` (main.go:174). -/
def queryRowByShortLink (ok : Bool) (db : Table) (shortLink : String) : Except SqlErr URL :=
  if ok then
    match db.rows.find? (fun r => r.ShortLink == shortLink) with
    | some row => scanRow row
    | none => .error .noRows
  else .error .failed

/-- The query of `isShortLinkInUse` (main.go:148) scanned into `count`. Its text
reads `COUNT()` where main.go:77 reads `COUNT(*)`; whether the server executes
it is the input `ok`. -/
def queryCountByShortLink (ok : Bool) (db : Table) (shortLink : String) : Except SqlErr Nat :=
  if ok then .ok (db.rows.filter (fun r => r.ShortLink == shortLink)).length
  else .error .failed

/-- Function `isShortLinkInUse` (main.go:146-153). -/
def isShortLinkInUse (ok : Bool) (db : Table) (shortLink : String) : Bool :=
  match queryCountByShortLink ok db shortLink with
  | .error _ => true
  | .ok count => decide (count > 0)

/-- How the loop of main.go:98-101 ends. -/
inductive Pick where
  /-- The call of `isShortLinkInUse` on candidate `k` returned false. -/
  | kept (shortLink : String) (k : Nat)
  /-- The call of `isShortLinkInUse` on candidate `k` panicked. -/
  | panicked (k : Nat)
deriving DecidableEq, Repr

/-- The loop of main.go:98-101, started at the `k`-th candidate and allowed
`fuel` calls of `isShortLinkInUse`; `none` when the fuel is used up. Each call
passes `*db` by value: the calls on candidates 0 and 1 run, and a call made
after two earlier ones panics. -/
def pickShortLink (env : Env) (db : Table) : Nat → Nat → Option Pick
  | 0, _ => none
  | fuel + 1, k =>
    if 2 ≤ k then some (.panicked k)
    else if isShortLinkInUse (env.inUseOk k) db (candidate env k) then
      pickShortLink env db fuel (k + 1)
    else some (.kept (candidate env k) k)

/-- Database calls made by the loop up to and including the one on candidate `k`. -/
def pickTrace (env : Env) (k : Nat) : List StoreOp :=
  (List.range (k + 1)).map (fun j => StoreOp.countByShortLink (candidate env j))

/-- Statement `INSERT INTO urls(short_link, full_link, created_at, expires_at)`: the row
is appended with the store-assigned id. -/
def insertRow (db : Table) (shortLink fullLink : String) (createdAt expiresAt : Int) : Table :=
  { rows := db.rows ++ [{ ID := db.autoInc, ShortLink := shortLink, FullLink := fullLink,
                          CreatedAt := createdAt, ExpiresAt := expiresAt }],
    autoInc := db.autoInc + 1 }

/-- Second half of `shortenLink` (main.go:103-134), after the loop has kept
`shortLink`; `pre` is the calls made so far. -/
def insertLink (env : Env) (db : Table) (fullLink shortLink : String)
    (pre : List StoreOp) : Outcome :=
  let expiresAt := env.now 0 + 24 * Hour
  if !env.prepareOk then
    ⟨.errorJSON 500 "failed to prepare database statement", db, pre ++ [.prepareInsert]⟩
  else
    let ops := pre ++ [.prepareInsert, .execInsert shortLink fullLink (env.now 1) expiresAt]
    if !env.execOk then
      ⟨.errorJSON 500 "failed to insert URL into database", db, ops⟩
    else
      let db1 := insertRow db shortLink fullLink (env.now 1) expiresAt
      if !env.lastIdOk then
        ⟨.errorJSON 500 "failed to get last insert ID", db1, ops ++ [.lastInsertId]⟩
      else
        ⟨.urlJSON { ID := db.autoInc, ShortLink := shortLink, FullLink := fullLink,
                    CreatedAt := env.now 2, ExpiresAt := expiresAt },
         db1, ops ++ [.lastInsertId]⟩

/-- The handler `shortenLink` after its loop (main.go:103-134); `pre` is the
calls made before the loop. After one call of `isShortLinkInUse` the insert
runs; after two, `db.Prepare` (main.go:105) panics. A trace that ends in a
panic has the panicking call as its last entry. -/
def finishShorten (env : Env) (db : Table) (fullLink : String) (pre : List StoreOp) :
    Pick → Outcome
  | .kept shortLink k =>
    if 1 ≤ k then ⟨.panic, db, pre ++ pickTrace env k ++ [.prepareInsert]⟩
    else insertLink env db fullLink shortLink (pre ++ pickTrace env k)
  | .panicked k => ⟨.panic, db, pre ++ pickTrace env k⟩

/-- Handler `shortenLink` (main.go:46-135) on the form value `url`. -/
def shortenLink (fuel : Nat) (env : Env) (db : Table) (fullLink : String) : Option Outcome :=
  if fullLink = "" then
    some ⟨.errorJSON 400 "url parameter is required", db, []⟩
  else if fullLink.utf8ByteSize > 2048 then
    some ⟨.errorJSON 400 "url is too long", db, []⟩
  else if !env.openOk then
    some ⟨.errorJSON 500 "failed to connect to database", db, [.openDB]⟩
  else if !env.pingOk then
    some ⟨.errorJSON 500 "failed to connect to database", db, [.openDB, .ping]⟩
  else
    match queryCount env.countOk db with
    | .error _ =>
      some ⟨.errorJSON 500 "failed to fetch URL count", db, [.openDB, .ping, .countAll]⟩
    | .ok count =>
      if count ≥ 20000 then
        some ⟨.errorJSON 503 "service temporarily unavailable", db, [.openDB, .ping, .countAll]⟩
      else
        match queryRowByFullLink env.selectOk db fullLink with
        | .ok url =>
          some ⟨.urlJSON url, db, [.openDB, .ping, .countAll, .selectByFullLink fullLink]⟩
        | .error _ =>
          match pickShortLink env db fuel 0 with
          | none => none
          | some pick =>
            some (finishShorten env db fullLink
              [.openDB, .ping, .countAll, .selectByFullLink fullLink] pick)

/-- Handler `redirectToLink` (main.go:155-188) on the route variable `shortLink`. -/
def redirectToLink (env : Env) (db : Table) (shortLink : String) : Outcome :=
  if !env.openOk then
    ⟨.errorJSON 500 "failed to connect to database", db, [.openDB]⟩
  else if !env.pingOk then
    ⟨.errorJSON 500 "failed to connect to database", db, [.openDB, .ping]⟩
  else
    match queryRowByShortLink env.selectOk db shortLink with
    | .error _ =>
      ⟨.errorJSON 404 "short link not found", db, [.openDB, .ping, .selectByShortLink shortLink]⟩
    | .ok url =>
      if env.now 0 > url.ExpiresAt then
        ⟨.errorJSON 410 "short link expired", db, [.openDB, .ping, .selectByShortLink shortLink]⟩
      else
        ⟨.redirect url.FullLink 303, db, [.openDB, .ping, .selectByShortLink shortLink]⟩

/-- Store-wide uniqueness of codes (data model, field `code`). -/
def CodesDistinct (db : Table) : Prop :=
  (db.rows.map URL.ShortLink).Nodup

/-- An environment in which every database call succeeds. -/
def Env.working (env : Env) : Prop :=
  env.openOk = true ∧ env.pingOk = true ∧ env.countOk = true ∧ env.selectOk = true ∧
  (∀ k, env.inUseOk k = true) ∧ env.prepareOk = true ∧ env.execOk = true ∧ env.lastIdOk = true

/-- A concrete environment: every call succeeds, candidate `k` is the letter of
index `first + k` repeated, and the clock starts at `t0` and advances by `tick`
per read. -/
def sampleEnv (first : Nat) (t0 tick : Int) : Env :=
  { openOk := true, pingOk := true, countOk := true, selectOk := true,
    inUseOk := fun _ => true, prepareOk := true, execOk := true, lastIdOk := true,
    intn := fun n => ⟨(first + n / 11) % 62, Nat.mod_lt _ (by decide)⟩,
    now := fun k => t0 + tick * k }

instance (db : Table) : Decidable (CodesDistinct db) := by
  unfold CodesDistinct
  infer_instance

/-- A stored row with code `aaaaaaaaaaa` that expires at instant `24 * Hour`. -/
def sampleRow : URL :=
  ⟨1, "aaaaaaaaaaa", "https://example.com/a", 0, 24 * Hour⟩

/-- A table that holds `sampleRow` only. -/
def sampleTable : Table := ⟨[sampleRow], 2⟩

/-- Row number `i` of `fillerTable`: its code spells `i` in base 62 over
`letterRunes`, lowest digit first. -/
def fillerRow (i : Nat) : URL :=
  ⟨(i : Int) + 1, generateShortLink (fun j => ⟨i / 62 ^ j % 62, Nat.mod_lt _ (by decide)⟩),
   "https://example.com/" ++ toString i, 0, 24 * Hour⟩

/-- A table of `n` rows; their codes are distinct as long as `n` is at most 20000. -/
def fillerTable (n : Nat) : Table :=
  ⟨(List.range n).map fillerRow, (n : Int) + 1⟩

/-- A target of 1025 two-byte characters. -/
def accentedTarget : String := String.mk (List.replicate 1025 'é')

/-- The table after shortening `https://example.com/b` on `sampleTable` with
`sampleEnv 1 0 1`. -/
def sampleTable2 : Table :=
  ⟨[sampleRow, ⟨2, "bbbbbbbbbbb", "https://example.com/b", 1, 24 * Hour⟩], 3⟩

/-- The outcome of shortening `https://example.com/b` on `sampleTable` with
`sampleEnv 1 0 1`. -/
def sampleCreated : Outcome :=
  ⟨.urlJSON ⟨2, "bbbbbbbbbbb", "https://example.com/b", 2, 24 * Hour⟩, sampleTable2,
   [.openDB, .ping, .countAll, .selectByFullLink "https://example.com/b",
    .countByShortLink "bbbbbbbbbbb", .prepareInsert,
    .execInsert "bbbbbbbbbbb" "https://example.com/b" 1 (24 * Hour), .lastInsertId]⟩

/-- As `sampleEnv 1 0 1`, but the row lookups (`WHERE full_link = ?`,
`WHERE short_link = ?`) fail. -/
def lookupFailsEnv : Env :=
  { sampleEnv 1 0 1 with selectOk := false }

/-- As `sampleEnv 1 0 1`, but the query of the first call of `isShortLinkInUse` fails. -/
def checkFailsEnv : Env :=
  { sampleEnv 1 0 1 with inUseOk := fun k => decide (0 < k) }

/-! ## Auxiliary facts -/

theorem utf8ByteSize_go_ge_length (cs : List Char) :
    cs.length ≤ String.utf8ByteSize.go cs := by
  induction cs with
  | nil => simp [String.utf8ByteSize.go]
  | cons c cs ih =>
    have hc : 0 < c.utf8Size := Char.utf8Size_pos c
    simp only [String.utf8ByteSize.go, List.length_cons]
    omega

/-- A Go string has at least as many bytes as characters. -/
theorem length_le_utf8ByteSize (s : String) : s.length ≤ s.utf8ByteSize := by
  cases s with
  | mk cs => exact utf8ByteSize_go_ge_length cs

theorem letterRunes_length : letterRunes.length = 62 := by decide

theorem letterAt_mem (i : Fin 62) : letterAt i ∈ letterRunes :=
  List.get_mem _ _ _

theorem generateShortLink_data (draw : Nat → Fin 62) :
    (generateShortLink draw).data = (List.range 11).map (fun i => letterAt (draw i)) := rfl

theorem isShortLinkInUse_eq_false (ok : Bool) (db : Table) (c : String) :
    isShortLinkInUse ok db c = false ↔ ok = true ∧ ∀ r ∈ db.rows, r.ShortLink ≠ c := by
  cases ok with
  | false => simp [isShortLinkInUse, queryCountByShortLink]
  | true =>
    simp [isShortLinkInUse, queryCountByShortLink, List.filter_eq_nil_iff]

/-- The table after `insertLink`: unchanged, or one row appended that carries
the code kept by the loop. -/
theorem insertLink_db (env : Env) (db : Table) (fullLink shortLink : String)
    (pre : List StoreOp) :
    (insertLink env db fullLink shortLink pre).db = db ∨
    (insertLink env db fullLink shortLink pre).db =
      insertRow db shortLink fullLink (env.now 1) (env.now 0 + 24 * Hour) := by
  unfold insertLink
  cases env.prepareOk <;> cases env.execOk <;> cases env.lastIdOk <;> simp

theorem insertLink_ok (env : Env) (db : Table) (fullLink shortLink : String)
    (pre : List StoreOp) (hp : env.prepareOk = true) (hx : env.execOk = true)
    (hl : env.lastIdOk = true) :
    insertLink env db fullLink shortLink pre =
      ⟨.urlJSON ⟨db.autoInc, shortLink, fullLink, env.now 2, env.now 0 + 24 * Hour⟩,
       insertRow db shortLink fullLink (env.now 1) (env.now 0 + 24 * Hour),
       pre ++ [.prepareInsert, .execInsert shortLink fullLink (env.now 1) (env.now 0 + 24 * Hour)]
         ++ [.lastInsertId]⟩ := by
  simp [insertLink, hp, hx, hl]

/-- The admission answer of `shortenLink` on a full table. -/
theorem shortenLink_full (fuel : Nat) (env : Env) (db : Table) (fullLink : String)
    (hne : fullLink ≠ "") (hlen : fullLink.utf8ByteSize ≤ 2048)
    (hopen : env.openOk = true) (hping : env.pingOk = true) (hcount : env.countOk = true)
    (hfull : 20000 ≤ db.rows.length) :
    shortenLink fuel env db fullLink =
      some ⟨.errorJSON 503 "service temporarily unavailable", db,
            [.openDB, .ping, .countAll]⟩ := by
  have h1 : ¬ 2048 < fullLink.utf8ByteSize := Nat.not_lt.mpr hlen
  simp [shortenLink, hne, h1, hopen, hping, hcount, queryCount, hfull]

theorem codesDistinct_insertRow (db : Table) (c t : String) (ca ea : Int)
    (hd : CodesDistinct db) (hfresh : ∀ r ∈ db.rows, r.ShortLink ≠ c) :
    CodesDistinct (insertRow db c t ca ea) := by
  unfold CodesDistinct insertRow
  simp only [List.map_append, List.map_cons, List.map_nil]
  rw [List.nodup_append]
  refine ⟨hd, List.nodup_singleton _, ?_⟩
  intro a ha hb
  rcases List.mem_map.mp ha with ⟨r, hr, rfl⟩
  rw [List.mem_singleton] at hb
  exact hfresh r hr hb

theorem redirectToLink_db (env : Env) (db : Table) (shortLink : String) :
    (redirectToLink env db shortLink).db = db := by
  unfold redirectToLink
  split
  · rfl
  split
  · rfl
  split
  · rfl
  split <;> rfl

/-- No row found is ever scanned: the DSN leaves `parseTime` unset. -/
theorem scanRow_error (row : URL) : scanRow row = .error .scan := rfl

/-- The lookup by target never yields a record. -/
theorem queryRowByFullLink_error (ok : Bool) (db : Table) (fullLink : String) :
    ∃ e, queryRowByFullLink ok db fullLink = .error e := by
  unfold queryRowByFullLink
  cases ok with
  | false => exact ⟨.failed, rfl⟩
  | true =>
    simp only [if_true]
    split
    · exact ⟨.scan, scanRow_error _⟩
    · exact ⟨.noRows, rfl⟩

/-- The lookup by code never yields a record. -/
theorem queryRowByShortLink_error (ok : Bool) (db : Table) (shortLink : String) :
    ∃ e, queryRowByShortLink ok db shortLink = .error e := by
  unfold queryRowByShortLink
  cases ok with
  | false => exact ⟨.failed, rfl⟩
  | true =>
    simp only [if_true]
    split
    · exact ⟨.scan, scanRow_error _⟩
    · exact ⟨.noRows, rfl⟩

/-- On a working connection `redirectToLink` answers 404 for every code,
stored or not, expired or not. -/
theorem redirectToLink_not_found (env : Env) (db : Table) (shortLink : String)
    (hopen : env.openOk = true) (hping : env.pingOk = true) :
    redirectToLink env db shortLink =
      ⟨.errorJSON 404 "short link not found", db,
       [.openDB, .ping, .selectByShortLink shortLink]⟩ := by
  obtain ⟨e, he⟩ := queryRowByShortLink_error env.selectOk db shortLink
  simp [redirectToLink, hopen, hping, he]

/-- What the loop has done when it keeps a candidate. -/
theorem pickShortLink_sound (env : Env) (db : Table) (fuel : Nat) :
    ∀ k0 c k, pickShortLink env db fuel k0 = some (.kept c k) →
      c = candidate env k ∧ k0 ≤ k ∧ k < 2 ∧
      isShortLinkInUse (env.inUseOk k) db (candidate env k) = false := by
  induction fuel with
  | zero => intro k0 c k h; simp [pickShortLink] at h
  | succ n ih =>
    intro k0 c k h
    rw [pickShortLink] at h
    split at h
    · cases h
    · rename_i hk
      split at h
      · obtain ⟨h1, h2, h3, h4⟩ := ih (k0 + 1) c k h
        exact ⟨h1, by omega, h3, h4⟩
      · rename_i hu
        simp only [Option.some.injEq, Pick.kept.injEq] at h
        obtain ⟨h1, h2⟩ := h
        subst h2
        exact ⟨h1.symm, Nat.le_refl _, by omega, by simpa using hu⟩

/-- The loop keeps the first candidate when the first check lets it through. -/
theorem pickShortLink_first_free (env : Env) (db : Table) (fuel : Nat) (hfuel : 0 < fuel)
    (hfree : isShortLinkInUse (env.inUseOk 0) db (candidate env 0) = false) :
    pickShortLink env db fuel 0 = some (.kept (candidate env 0) 0) := by
  cases fuel with
  | zero => omega
  | succ n => simp [pickShortLink, hfree]

/-- Entry of `shortenLink` into the generation loop: a validated target, a
working connection and count, a table below capacity. The rows play no part,
since the lookup by target never yields a record. -/
theorem shortenLink_generate (fuel : Nat) (env : Env) (db : Table) (fullLink : String)
    (hne : fullLink ≠ "") (hlen : fullLink.utf8ByteSize ≤ 2048)
    (hopen : env.openOk = true) (hping : env.pingOk = true) (hcount : env.countOk = true)
    (hcap : db.rows.length < 20000) :
    shortenLink fuel env db fullLink =
      (pickShortLink env db fuel 0).map
        (finishShorten env db fullLink [.openDB, .ping, .countAll, .selectByFullLink fullLink]) := by
  have h1 : ¬ 2048 < fullLink.utf8ByteSize := Nat.not_lt.mpr hlen
  have h2 : ¬ 20000 ≤ db.rows.length := Nat.not_le.mpr hcap
  obtain ⟨e, hq⟩ := queryRowByFullLink_error env.selectOk db fullLink
  simp only [shortenLink, hne, h1, hopen, hping, hcount, queryCount, hq, if_false, if_true,
    Bool.not_true, ge_iff_le, h2, Bool.false_eq_true]
  cases pickShortLink env db fuel 0 with
  | none => rfl
  | some p => rfl

/-- The table after `finishShorten`: unchanged, or one row appended under the
code kept by the loop. -/
theorem finishShorten_db (env : Env) (db : Table) (fullLink : String) (pre : List StoreOp)
    (pick : Pick) :
    (finishShorten env db fullLink pre pick).db = db ∨
    ∃ c k, pick = .kept c k ∧
      (finishShorten env db fullLink pre pick).db =
        insertRow db c fullLink (env.now 1) (env.now 0 + 24 * Hour) := by
  cases pick with
  | panicked k => left; rfl
  | kept c k =>
    by_cases hk : 1 ≤ k
    · left
      simp [finishShorten, hk]
    · rcases insertLink_db env db fullLink c (pre ++ pickTrace env k) with h | h
      · left
        simpa [finishShorten, hk] using h
      · right
        exact ⟨c, k, rfl, by simpa [finishShorten, hk] using h⟩

/-- The table after `shortenLink`: unchanged, or one row appended whose code
passed `isShortLinkInUse` on the table before. -/
theorem shortenLink_db (fuel : Nat) (env : Env) (db : Table) (fullLink : String)
    (out : Outcome) (h : shortenLink fuel env db fullLink = some out) :
    out.db = db ∨ ∃ k, isShortLinkInUse (env.inUseOk k) db (candidate env k) = false ∧
      out.db = insertRow db (candidate env k) fullLink (env.now 1) (env.now 0 + 24 * Hour) := by
  unfold shortenLink at h
  split at h
  · left; cases h; rfl
  split at h
  · left; cases h; rfl
  split at h
  · left; cases h; rfl
  split at h
  · left; cases h; rfl
  split at h
  · left; cases h; rfl
  split at h
  · left; cases h; rfl
  split at h
  · left; cases h; rfl
  split at h
  · cases h
  · rename_i pick hp
    cases h
    rcases finishShorten_db env db fullLink
      [.openDB, .ping, .countAll, .selectByFullLink fullLink] pick with h1 | ⟨c, k, hk, h1⟩
    · left; exact h1
    · subst hk
      obtain ⟨hc, _, _, hfree⟩ := pickShortLink_sound env db fuel 0 c k hp
      subst hc
      right; exact ⟨k, hfree, h1⟩

/-- On a working store below capacity, with a validated target: when the first
candidate is the code of no row, `shortenLink` inserts a row under it and
answers with the record. -/
theorem shortenLink_creates (fuel : Nat) (env : Env) (db : Table) (target : String)
    (hne : target ≠ "") (hbytes : target.utf8ByteSize ≤ 2048) (hw : env.working)
    (hcap : db.rows.length < 20000) (hfuel : 0 < fuel)
    (hfresh : ∀ r ∈ db.rows, r.ShortLink ≠ candidate env 0) :
    shortenLink fuel env db target =
      some ⟨.urlJSON ⟨db.autoInc, candidate env 0, target, env.now 2, env.now 0 + 24 * Hour⟩,
        insertRow db (candidate env 0) target (env.now 1) (env.now 0 + 24 * Hour),
        [.openDB, .ping, .countAll, .selectByFullLink target] ++ pickTrace env 0 ++
          [.prepareInsert,
           .execInsert (candidate env 0) target (env.now 1) (env.now 0 + 24 * Hour)] ++
          [.lastInsertId]⟩ := by
  obtain ⟨hopen, hping, hcount, _, huse, hp, hx, hl⟩ := hw
  have hfree : isShortLinkInUse (env.inUseOk 0) db (candidate env 0) = false :=
    (isShortLinkInUse_eq_false _ _ _).mpr ⟨huse 0, hfresh⟩
  rw [shortenLink_generate fuel env db target hne hbytes hopen hping hcount hcap,
    pickShortLink_first_free env db fuel hfuel hfree]
  simp only [Option.map_some', finishShorten]
  rw [if_neg (by decide), insertLink_ok env db target (candidate env 0) _ hp hx hl]

/-- On a validated request with a working connection and a table below
capacity: when the first check fails or finds the code in use, `shortenLink`
ends in a panic, with nothing inserted. -/
theorem shortenLink_busy_panics (fuel : Nat) (env : Env) (db : Table) (target : String)
    (hne : target ≠ "") (hbytes : target.utf8ByteSize ≤ 2048)
    (hopen : env.openOk = true) (hping : env.pingOk = true) (hcount : env.countOk = true)
    (hcap : db.rows.length < 20000) (hfuel : 3 ≤ fuel)
    (hbusy : isShortLinkInUse (env.inUseOk 0) db (candidate env 0) = true) :
    ∃ tr, shortenLink fuel env db target = some ⟨.panic, db, tr⟩ := by
  rw [shortenLink_generate fuel env db target hne hbytes hopen hping hcount hcap]
  obtain ⟨n, rfl⟩ : ∃ n, fuel = n + 3 := ⟨fuel - 3, by omega⟩
  by_cases h1 : isShortLinkInUse (env.inUseOk 1) db (candidate env 1) = true
  · exact ⟨_, by simp [pickShortLink, hbusy, h1, finishShorten]; rfl⟩
  · exact ⟨_, by simp [pickShortLink, hbusy, h1, finishShorten]; rfl⟩

/-! ## Facts about the sample data -/

theorem utf8ByteSize_go_replicate (n : Nat) (c : Char) :
    String.utf8ByteSize.go (List.replicate n c) = n * c.utf8Size := by
  induction n with
  | zero => simp [String.utf8ByteSize.go]
  | succ n ih =>
    rw [List.replicate_succ, String.utf8ByteSize.go, ih]
    ring

theorem accentedTarget_length : accentedTarget.length = 1025 :=
  List.length_replicate _ _

theorem accentedTarget_bytes : accentedTarget.utf8ByteSize = 2050 := by
  show String.utf8ByteSize.go (List.replicate 1025 'é') = 2050
  rw [utf8ByteSize_go_replicate]
  decide

theorem accentedTarget_ne_empty : accentedTarget ≠ "" := by
  intro h
  have h2 := congrArg String.length h
  rw [accentedTarget_length] at h2
  exact absurd h2 (by decide)

theorem fillerTable_length (n : Nat) : (fillerTable n).rows.length = n := by
  simp [fillerTable]

theorem sampleEnv_working (first : Nat) (t0 tick : Int) : (sampleEnv first t0 tick).working :=
  ⟨rfl, rfl, rfl, rfl, fun _ => rfl, rfl, rfl, rfl⟩

/-! ## Validation (main.go:47-58) -/

/-- C7: for every target that is empty or longer than 2048 characters,
`shortenLink` answers HTTP 400 with no database call made (empty trace) and the
table unchanged, whatever the environment and the fuel. -/
theorem shortenLink_invalid_input (fuel : Nat) (env : Env) (db : Table) (fullLink : String)
    (h : fullLink = "" ∨ 2048 < fullLink.length) :
    ∃ msg, shortenLink fuel env db fullLink = some ⟨.errorJSON 400 msg, db, []⟩ := by
  by_cases he : fullLink = ""
  · exact ⟨"url parameter is required", by simp [shortenLink, he]⟩
  · have hlen : 2048 < fullLink.length := by
      rcases h with h | h
      · exact absurd h he
      · exact h
    have hb : 2048 < fullLink.utf8ByteSize :=
      Nat.lt_of_lt_of_le hlen (length_le_utf8ByteSize fullLink)
    exact ⟨"url is too long", by simp [shortenLink, he, hb]⟩

theorem shortenLink_invalid_input_witness :
    ("" = "" ∨ 2048 < "".length) ∧
    ∃ msg, shortenLink 0 (sampleEnv 0 0 1) ⟨[], 1⟩ "" = some ⟨.errorJSON 400 msg, ⟨[], 1⟩, []⟩ :=
  ⟨Or.inl rfl, shortenLink_invalid_input 0 (sampleEnv 0 0 1) ⟨[], 1⟩ "" (Or.inl rfl)⟩

/-! ## Code generator (main.go:137-144) -/

/-- C9: for every sequence of draws in `[0, 62)`, `generateShortLink` returns
exactly 11 characters, position `i` is `letterRunes[draw i]`, every character
belongs to `letterRunes`, and `letterRunes` is the 62 distinct symbols
a-z, A-Z, 0-9. -/
theorem generateShortLink_spec (draw : Nat → Fin 62) :
    (generateShortLink draw).length = 11 ∧
    (∀ i : Fin 11, (generateShortLink draw).data[i.val]? = letterRunes[(draw i.val).val]?) ∧
    (generateShortLink draw).data.all (fun c => decide (c ∈ letterRunes)) = true ∧
    letterRunes.length = 62 ∧ letterRunes.Nodup ∧
    letterRunes.all (fun c => c.isLower || c.isUpper || c.isDigit) = true := by
  refine ⟨?_, ?_, ?_, by decide, by decide, by decide⟩
  · simp [String.length, generateShortLink_data]
  · intro i
    rw [generateShortLink_data]
    have hi : i.val < (List.range 11).length := by simp
    rw [List.getElem?_map, List.getElem?_eq_getElem hi]
    simp only [List.getElem_range, Option.map_some']
    have hj : (draw i.val).val < letterRunes.length :=
      Nat.lt_of_lt_of_eq (draw i.val).isLt letterRunes_length.symm
    rw [List.getElem?_eq_getElem hj]
    rfl
  · rw [generateShortLink_data, List.all_eq_true]
    intro c hc
    rcases List.mem_map.mp hc with ⟨i, _, rfl⟩
    simpa using letterAt_mem (draw i)

/-! ## Capacity admission (main.go:75-87) -/

/-- C3: for every target that passes validation, when the connection and the
count query succeed and the table holds 20000 rows or more, `shortenLink`
answers 503 "service temporarily unavailable" after the calls open, ping and
count only, and the table is unchanged: no row is added whether or not a row
with this target is stored. -/
theorem shortenLink_capacity (fuel : Nat) (env : Env) (db : Table) (fullLink : String)
    (hne : fullLink ≠ "") (hlen : fullLink.utf8ByteSize ≤ 2048)
    (hopen : env.openOk = true) (hping : env.pingOk = true) (hcount : env.countOk = true)
    (hfull : 20000 ≤ db.rows.length) :
    ∃ out, shortenLink fuel env db fullLink = some out ∧
      out.resp = .errorJSON 503 "service temporarily unavailable" ∧
      out.db = db ∧ out.trace = [.openDB, .ping, .countAll] :=
  ⟨_, shortenLink_full fuel env db fullLink hne hlen hopen hping hcount hfull, rfl, rfl, rfl⟩

theorem shortenLink_capacity_witness :
    20000 ≤ (fillerTable 20000).rows.length ∧
    ∃ out, shortenLink 0 (sampleEnv 0 0 1) (fillerTable 20000) "https://example.com/7" =
        some out ∧
      out.resp = .errorJSON 503 "service temporarily unavailable" ∧
      out.db = fillerTable 20000 ∧ out.trace = [.openDB, .ping, .countAll] :=
  ⟨Nat.le_of_eq (fillerTable_length 20000).symm,
   shortenLink_capacity 0 (sampleEnv 0 0 1) (fillerTable 20000) "https://example.com/7"
     (by decide) (by decide) rfl rfl rfl (Nat.le_of_eq (fillerTable_length 20000).symm)⟩

/-! ## Resolution (main.go:155-188) -/

/-- C6 at a stored row whose expiry has passed: on a table with distinct codes
and a working connection, at an instant one nanosecond after the row's
`ExpiresAt`, `redirectToLink` on the row's code answers 404 "short link not
found" where the claim says 410 "short link expired"; the table is unchanged. -/
theorem redirectToLink_expired_not_found :
    sampleRow ∈ sampleTable.rows ∧ CodesDistinct sampleTable ∧
    (sampleEnv 0 (24 * Hour + 1) 0).working ∧
    (sampleEnv 0 (24 * Hour + 1) 0).now 0 > sampleRow.ExpiresAt ∧
    redirectToLink (sampleEnv 0 (24 * Hour + 1) 0) sampleTable sampleRow.ShortLink =
      ⟨.errorJSON 404 "short link not found", sampleTable,
       [.openDB, .ping, .selectByShortLink "aaaaaaaaaaa"]⟩ :=
  ⟨by decide, by decide, sampleEnv_working 0 (24 * Hour + 1) 0, by decide, by decide⟩

/-! ## Round trip -/

/-- C1 at a fresh target: on a working store, `shortenLink` inserts a row for
`https://example.com/b` and answers with the record of code `bbbbbbbbbbb` and
expiry `24 * Hour`; `redirectToLink` on that code, run on the resulting table
with a working connection at the instant `24 * Hour`, answers 404 "short link
not found" where the claim says a redirect to the target. -/
theorem shorten_then_resolve_not_found :
    shortenLink 1 (sampleEnv 1 0 1) sampleTable "https://example.com/b" = some sampleCreated ∧
    sampleCreated.resp =
      .urlJSON ⟨2, "bbbbbbbbbbb", "https://example.com/b", 2, 24 * Hour⟩ ∧
    (sampleEnv 0 (24 * Hour) 0).working ∧
    (sampleEnv 0 (24 * Hour) 0).now 0 ≤ 24 * Hour ∧
    redirectToLink (sampleEnv 0 (24 * Hour) 0) sampleCreated.db "bbbbbbbbbbb" =
      ⟨.errorJSON 404 "short link not found", sampleCreated.db,
       [.openDB, .ping, .selectByShortLink "bbbbbbbbbbb"]⟩ :=
  ⟨by decide, rfl, sampleEnv_working 0 (24 * Hour) 0, by decide, by decide⟩

/-! ## Code uniqueness -/

/-- C10: whenever `shortenLink` returns, the table is unchanged or has one row
appended whose code differs from the code of every row that was there, and
distinct codes stay distinct; `redirectToLink` leaves the table as it was, so
distinct codes stay distinct there too. -/
theorem codes_stay_distinct :
    (∀ (fuel : Nat) (env : Env) (db : Table) (fullLink : String) (out : Outcome),
      shortenLink fuel env db fullLink = some out →
        (out.db = db ∨ ∃ row, out.db.rows = db.rows ++ [row] ∧
          ∀ r ∈ db.rows, r.ShortLink ≠ row.ShortLink) ∧
        (CodesDistinct db → CodesDistinct out.db)) ∧
    (∀ (env : Env) (db : Table) (shortLink : String),
      (redirectToLink env db shortLink).db = db ∧
      (CodesDistinct db → CodesDistinct (redirectToLink env db shortLink).db)) := by
  constructor
  · intro fuel env db fullLink out h
    rcases shortenLink_db fuel env db fullLink out h with h1 | ⟨k, hfree, h1⟩
    · exact ⟨Or.inl h1, fun hd => h1 ▸ hd⟩
    · have hfresh := ((isShortLinkInUse_eq_false _ _ _).mp hfree).2
      refine ⟨Or.inr ⟨⟨db.autoInc, candidate env k, fullLink, env.now 1, env.now 0 + 24 * Hour⟩,
        ?_, hfresh⟩, fun hd => ?_⟩
      · rw [h1]; rfl
      · rw [h1]
        exact codesDistinct_insertRow db _ _ _ _ hd hfresh
  · intro env db shortLink
    rw [redirectToLink_db]
    exact ⟨rfl, id⟩


theorem codes_stay_distinct_witness : CodesDistinct sampleCreated.db :=
  (codes_stay_distinct.1 1 (sampleEnv 1 0 1) sampleTable "https://example.com/b" sampleCreated
    (by decide)).2 (by decide)

/-! ## Length bound of the target -/

/-- C8, as stated, fails: a target of 1025 characters, each two bytes long, is
non-empty and within 2048 characters, and `shortenLink` answers 400
"url is too long" on a working store below capacity. -/
theorem shortenLink_multibyte_rejected :
    accentedTarget ≠ "" ∧ accentedTarget.length ≤ 2048 ∧
    (sampleEnv 1 0 1).working ∧ sampleTable.rows.length < 20000 ∧
    shortenLink 1 (sampleEnv 1 0 1) sampleTable accentedTarget =
      some ⟨.errorJSON 400 "url is too long", sampleTable, []⟩ := by
  refine ⟨accentedTarget_ne_empty, ?_, sampleEnv_working 1 0 1, by decide, ?_⟩
  · rw [accentedTarget_length]
    decide
  · simp [shortenLink, accentedTarget_ne_empty, accentedTarget_bytes]

/-- The answer of `finishShorten` is never a 400. -/
theorem finishShorten_not_400 (env : Env) (db : Table) (fullLink : String)
    (pre : List StoreOp) (pick : Pick) (msg : String) :
    (finishShorten env db fullLink pre pick).resp ≠ .errorJSON 400 msg := by
  cases pick with
  | panicked k => simp [finishShorten]
  | kept c k =>
    by_cases hk : 1 ≤ k
    · simp [finishShorten, hk]
    · simp only [finishShorten, hk, if_false]
      unfold insertLink
      cases env.prepareOk <;> cases env.execOk <;> cases env.lastIdOk <;> simp

/-- C8, amended: for every non-empty target of at most 2048 bytes,
`shortenLink` never answers 400; on a working store below capacity, when the
first generated candidate is the code of no row, it returns a record whose
`FullLink` is that target. -/
theorem shortenLink_accepts_valid (fuel : Nat) (env : Env) (db : Table) (target : String)
    (hne : target ≠ "") (hbytes : target.utf8ByteSize ≤ 2048) :
    (∀ out, shortenLink fuel env db target = some out → ∀ msg, out.resp ≠ .errorJSON 400 msg) ∧
    (env.working → db.rows.length < 20000 → 0 < fuel →
      (∀ r ∈ db.rows, r.ShortLink ≠ candidate env 0) →
      ∃ out url, shortenLink fuel env db target = some out ∧ out.resp = .urlJSON url ∧
        url.FullLink = target) := by
  constructor
  · intro out h msg hresp
    have h1 : ¬ 2048 < target.utf8ByteSize := Nat.not_lt.mpr hbytes
    unfold shortenLink at h
    rw [if_neg hne, if_neg h1] at h
    split at h
    · cases h; cases hresp
    split at h
    · cases h; cases hresp
    split at h
    · cases h; cases hresp
    split at h
    · cases h; cases hresp
    split at h
    · cases h; cases hresp
    split at h
    · cases h
    · cases h
      exact finishShorten_not_400 _ _ _ _ _ _ hresp
  · intro hw hcap hfuel hfresh
    exact ⟨_, _, shortenLink_creates fuel env db target hne hbytes hw hcap hfuel hfresh,
      rfl, rfl⟩

theorem shortenLink_accepts_valid_witness :
    ∃ out url, shortenLink 1 (sampleEnv 1 0 1) sampleTable "https://example.com/b" = some out ∧
      out.resp = .urlJSON url ∧ url.FullLink = "https://example.com/b" :=
  (shortenLink_accepts_valid 1 (sampleEnv 1 0 1) sampleTable "https://example.com/b"
    (by decide) (by decide)).2 (sampleEnv_working 1 0 1) (by decide) (by decide) (by decide)

/-! ## Timestamps of a created record -/

/-- C4 at a clock that advances by one nanosecond per read (reads 0, 1, 2):
`shortenLink` stores a row with `CreatedAt = 1` and `ExpiresAt = 0 + 24h` and
returns a record with `CreatedAt = 2` and the same `ExpiresAt`, so in neither
is `ExpiresAt` equal to `CreatedAt + 24h`, and the two `CreatedAt` differ. -/
theorem shortenLink_three_clock_reads :
    ∃ out row url,
      shortenLink 1 (sampleEnv 1 0 1) sampleTable "https://example.com/b" = some out ∧
      out.db.rows = sampleTable.rows ++ [row] ∧ out.resp = .urlJSON url ∧
      row.CreatedAt = 1 ∧ row.ExpiresAt = 24 * Hour ∧
      url.CreatedAt = 2 ∧ url.ExpiresAt = 24 * Hour ∧
      row.ExpiresAt ≠ row.CreatedAt + 24 * Hour ∧
      url.ExpiresAt ≠ url.CreatedAt + 24 * Hour :=
  ⟨sampleCreated, ⟨2, "bbbbbbbbbbb", "https://example.com/b", 1, 24 * Hour⟩,
   ⟨2, "bbbbbbbbbbb", "https://example.com/b", 2, 24 * Hour⟩,
   by decide, rfl, rfl, rfl, rfl, rfl, rfl, by decide, by decide⟩

/-! ## Shortening the same target twice -/

/-- C5 at three failing calls. With the row lookups failing, `redirectToLink`
on a stored code answers 404 "short link not found", and `shortenLink` on a
stored target inserts a second row for it and answers with the new record.
With the query of the first `isShortLinkInUse` failing, `shortenLink` drops the
first candidate and checks a second one. In none of the three is the answer
a 500. -/
theorem storage_failure_outcomes :
    sampleRow ∈ sampleTable.rows ∧
    redirectToLink lookupFailsEnv sampleTable sampleRow.ShortLink =
      ⟨.errorJSON 404 "short link not found", sampleTable,
       [.openDB, .ping, .selectByShortLink "aaaaaaaaaaa"]⟩ ∧
    shortenLink 1 lookupFailsEnv sampleTable sampleRow.FullLink =
      some ⟨.urlJSON ⟨2, "bbbbbbbbbbb", "https://example.com/a", 2, 24 * Hour⟩,
        ⟨[sampleRow, ⟨2, "bbbbbbbbbbb", "https://example.com/a", 1, 24 * Hour⟩], 3⟩,
        [.openDB, .ping, .countAll, .selectByFullLink "https://example.com/a",
         .countByShortLink "bbbbbbbbbbb", .prepareInsert,
         .execInsert "bbbbbbbbbbb" "https://example.com/a" 1 (24 * Hour), .lastInsertId]⟩ ∧
    shortenLink 3 checkFailsEnv sampleTable "https://example.com/b" =
      some ⟨.panic, sampleTable,
        [.openDB, .ping, .countAll, .selectByFullLink "https://example.com/b",
         .countByShortLink "bbbbbbbbbbb", .countByShortLink "ccccccccccc",
         .prepareInsert]⟩ := by
  refine ⟨by decide, by decide, by decide, by decide⟩

end UrlShortener
